import Mathlib

/-!
Verification of the YouTube channel parser (`src/main.py`) against its
natural-language specification.

The embedding is shallow: each Python function of the source is translated
into a computable Lean definition.  Network effects are scripted: the HTTP
status code and JSON body that the remote API would deliver for each request
are parameters (the transport layer `stubborn_request` retries until it gets
a response of some status, so a response always arrives).  The process-wide
flag `api_request_allow` is threaded explicitly as a `Bool` ("the gate").
Python exceptions (IndexError on `items[0]`, TypeError on joining a list
that contains `None`) are represented by dedicated outcome constructors,
since an uncaught exception aborts the run.
-/

/-- The message printed by `api_get_request` when the gate is (or becomes) closed. -/
def api_error_message : String := "Api response error!"

/-- Outcome of one call to `api_get_request` (src/main.py lines 44-58).
`gotResponse`: the HTTP response object was returned to the caller.
`returnedFalse`: the function printed `printed` and returned the Python
value `False` (the closed-gate signal).
`exited`: the function printed `printed` and called `sys.exit("exit")`,
which terminates the process with the given non-zero exit code
(Python exits with status 1 when `sys.exit` is given a string). -/
inductive GateStep where
  | gotResponse : GateStep
  | returnedFalse : (printed : String) → GateStep
  | exited : (printed : String) → (exitCode : Nat) → GateStep
deriving DecidableEq

/-- Result of `api_get_request`: the new value of the global
`api_request_allow` flag, what the call did, and how many HTTP requests
actually went out on the wire (0 when the gate short-circuits). -/
structure GateResult where
  allow : Bool
  step : GateStep
  transportRequests : Nat
deriving DecidableEq

/-- `api_get_request(url, exit_if_not)` from src/main.py lines 44-58.
If the gate is open, the transport performs the request; a status other
than exactly 200 flips the gate to closed and control falls through to the
closed branch, which prints "Api response error!" and either exits
(`exit_if_not = true`) or returns `False`. -/
def api_get_request (allow : Bool) (status : Nat) (exit_if_not : Bool) : GateResult :=
  if allow then
    if status ≠ 200 then
      if exit_if_not then ⟨false, GateStep.exited api_error_message 1, 1⟩
      else ⟨false, GateStep.returnedFalse api_error_message, 1⟩
    else ⟨true, GateStep.gotResponse, 1⟩
  else
    if exit_if_not then ⟨false, GateStep.exited api_error_message 1, 0⟩
    else ⟨false, GateStep.returnedFalse api_error_message, 0⟩

example : api_get_request true 200 false = ⟨true, GateStep.gotResponse, 1⟩ := rfl
example : api_get_request true 404 false =
    ⟨false, GateStep.returnedFalse api_error_message, 1⟩ := rfl
example : api_get_request false 200 true =
    ⟨false, GateStep.exited api_error_message 1, 0⟩ := rfl

/-- The `snippet` sub-object of a playlist item
(src/main.py lines 132-135 read `title`, `description`, `publishedAt`). -/
structure Snippet where
  title : Option String
  description : Option String
  publishedAt : Option String
deriving DecidableEq

/-- The `contentDetails` sub-object of a playlist item (line 134 reads `videoId`). -/
structure PlaylistContentDetails where
  videoId : Option String
deriving DecidableEq

/-- One element of the `items` array of a playlist-items page (lines 129-135). -/
structure PlaylistItem where
  kind : String
  snippet : Snippet
  contentDetails : PlaylistContentDetails
deriving DecidableEq

/-- The JSON body of one playlist-items page: the `items` array and the
optional `nextPageToken` continuation cursor (lines 120, 129, 180-183). -/
structure PageJson where
  items : List PlaylistItem
  nextPageToken : Option String
deriving DecidableEq

/-- The `statistics` sub-object of a statistics item (lines 159-161). -/
structure Statistics where
  viewCount : Option String
  likeCount : Option String
  commentCount : Option String
deriving DecidableEq

/-- One element of the `items` array of a videos-statistics response (line 157). -/
structure StatsItem where
  statistics : Statistics
deriving DecidableEq

/-- The JSON body of one videos-statistics response. -/
structure StatsJson where
  items : List StatsItem
deriving DecidableEq

/-- One record of the output `videos` list (lines 164-174). -/
structure VideoRecord where
  title : Option String
  link : String
  publish_time : Option String
  views : Option String
  likes : Option String
  comments_number : Option String
  description : Option String
deriving DecidableEq

/-- `publish_time` normalization (line 135):
`item["snippet"]["publishedAt"].replace('T', ' ').replace('Z', '')`.
Both patterns are single characters, so Python's replace-all is a map of
`T` to a space followed by deletion of every `Z`. -/
def normalize_published_at (s : String) : String :=
  String.mk (((s.data.map (fun c => if c = 'T' then ' ' else c)).filter (fun c => c ≠ 'Z')))

example : normalize_published_at "2021-05-01T12:00:00Z" = "2021-05-01 12:00:00" := by decide

/-- The items of a page that pass the `item["kind"] == "youtube#playlistItem"`
filter (line 130); only those contribute to the four buffers. -/
def filteredItems (page : PageJson) : List PlaylistItem :=
  page.items.filter (fun it => it.kind = "youtube#playlistItem")

/-- `title_buffer` after the parsing loop (lines 122, 132, 137). -/
def title_buffer (page : PageJson) : List (Option String) :=
  (filteredItems page).map (fun it => it.snippet.title)

/-- `description_buffer` after the parsing loop (lines 123, 133, 138). -/
def description_buffer (page : PageJson) : List (Option String) :=
  (filteredItems page).map (fun it => it.snippet.description)

/-- `video_id_buffer` after the parsing loop (lines 124, 134, 139). -/
def video_id_buffer (page : PageJson) : List (Option String) :=
  (filteredItems page).map (fun it => it.contentDetails.videoId)

/-- `publish_time_buffer` after the parsing loop (lines 125, 135, 140). -/
def publish_time_buffer (page : PageJson) : List (Option String) :=
  (filteredItems page).map (fun it => it.snippet.publishedAt.map normalize_published_at)

/-- Python `",".join(xs)` over a list whose elements may be `None`
(line 147).  Joining raises `TypeError` as soon as the list contains a
`None`; `none` here stands for that exception. -/
def pyJoinComma (l : List (Option String)) : Option String :=
  (l.mapM (fun x => x)).map (fun ss => String.intercalate "," ss)

example : pyJoinComma [some "a", some "b"] = some "a,b" := by decide
example : pyJoinComma [some "a", none] = none := by decide

/-- Python string interpolation of a value that may be `None`
(f-strings render `None` as the text "None"). -/
def pyStr : Option String → String
  | none => "None"
  | some s => s

/-- `youtube_link` (line 105). -/
def youtube_link : String := "https://www.youtube.com/watch?v="

/-- Construction of the record appended for the `i`-th statistics item
(lines 157-174).  Each of `title_buffer[i]`, `description_buffer[i]`,
`video_id_buffer[i]`, `publish_time_buffer[i]` is a Python list index:
`none` here stands for the `IndexError` raised when `i` is out of range. -/
def mk_video_record (page : PageJson) (i : Nat) (v : StatsItem) : Option VideoRecord :=
  match (title_buffer page)[i]?, (description_buffer page)[i]?,
        (video_id_buffer page)[i]?, (publish_time_buffer page)[i]? with
  | some t, some d, some vid, some pt =>
    some { title := t,
           link := youtube_link ++ pyStr vid,
           publish_time := pt,
           views := v.statistics.viewCount,
           likes := v.statistics.likeCount,
           comments_number := v.statistics.commentCount,
           description := d }
  | _, _, _, _ => none

/-- The `for i, video in enumerate(videos_statistics_json["items"])` loop
(lines 157-174), with `i` the running index: builds the page's records in
order, or `none` if some iteration indexes a buffer out of range
(an uncaught `IndexError` aborting the run). -/
def records_loop (page : PageJson) : Nat → List StatsItem → Option (List VideoRecord)
  | _, [] => some []
  | i, v :: rest =>
    match mk_video_record page i v with
    | none => none
    | some r => (records_loop page (i + 1) rest).map (fun l => r :: l)

/-- The records contributed by one page: the enumerate loop started at index 0. -/
def page_records (page : PageJson) (stats : StatsJson) : Option (List VideoRecord) :=
  records_loop page 0 stats.items

/-- What the environment scripts for one iteration of the pagination loop:
the HTTP status and JSON body of the playlist-items request, and the HTTP
status and JSON body of the statistics request. -/
structure PageFetch where
  listStatus : Nat
  listBody : PageJson
  statsStatus : Nat
  statsBody : StatsJson
deriving DecidableEq

/-- How a run of `get_videos_list` ends.
`ok`: the function returned the list normally.
`typeFault`: uncaught `TypeError` in `",".join(video_id_buffer)` (line 147)
because the buffer holds a `None`.
`indexFault`: uncaught `IndexError` indexing a buffer (lines 166-172).
`envExhausted`: the loop wanted another page but the scripted environment
has none left (only reachable when every scripted page carries a cursor). -/
inductive RunOutcome where
  | ok : (videos : List VideoRecord) → RunOutcome
  | typeFault : RunOutcome
  | indexFault : RunOutcome
  | envExhausted : (videos : List VideoRecord) → RunOutcome
deriving DecidableEq

/-- Result of the pagination loop: final gate flag, how the run ended, and
how many playlist-items and statistics HTTP requests went out. -/
structure LoopResult where
  allow : Bool
  outcome : RunOutcome
  list_requests : Nat
  stats_requests : Nat
deriving DecidableEq

/-- The `while run` loop of `get_videos_list` (src/main.py lines 107-185),
one scripted `PageFetch` consumed per iteration:
1. gated playlist-items request (line 116); if it returned `False`,
   return the accumulated list (lines 117-118);
2. build the four buffers from the items of kind `youtube#playlistItem`
   (lines 122-140) and join the video ids with commas (line 147) —
   a `None` id raises `TypeError`;
3. gated statistics request (line 150); if it returned `False`, return the
   accumulated list, dropping this page's parsed items (lines 151-152);
4. append one record per statistics item, indexing the buffers (157-174);
5. continue while the page carries `nextPageToken`, else stop (180-183). -/
def run_pages (allow : Bool) : List PageFetch → List VideoRecord → LoopResult
  | [], acc => ⟨allow, RunOutcome.envExhausted acc, 0, 0⟩
  | p :: rest, acc =>
    let g1 := api_get_request allow p.listStatus false
    if g1.step ≠ GateStep.gotResponse then
      ⟨g1.allow, RunOutcome.ok acc, g1.transportRequests, 0⟩
    else match pyJoinComma (video_id_buffer p.listBody) with
      | none => ⟨g1.allow, RunOutcome.typeFault, g1.transportRequests, 0⟩
      | some _ =>
        let g2 := api_get_request g1.allow p.statsStatus false
        if g2.step ≠ GateStep.gotResponse then
          ⟨g2.allow, RunOutcome.ok acc, g1.transportRequests, g2.transportRequests⟩
        else match page_records p.listBody p.statsBody with
          | none => ⟨g2.allow, RunOutcome.indexFault, g1.transportRequests, g2.transportRequests⟩
          | some recs =>
            match p.listBody.nextPageToken with
            | some _ =>
              let r := run_pages g2.allow rest (acc ++ recs)
              ⟨r.allow, r.outcome, g1.transportRequests + r.list_requests,
               g2.transportRequests + r.stats_requests⟩
            | none =>
              ⟨g2.allow, RunOutcome.ok (acc ++ recs), g1.transportRequests, g2.transportRequests⟩

/-- `get_videos_list` (lines 97-185): the loop started with the gate open,
empty accumulator, first page token absent. -/
def get_videos_list (pages : List PageFetch) : LoopResult :=
  run_pages true pages []

lemma api_open_200 (e : Bool) : api_get_request true 200 e = ⟨true, GateStep.gotResponse, 1⟩ := by
  simp [api_get_request]

lemma api_open_fail (s : Nat) (h : s ≠ 200) :
    api_get_request true s false = ⟨false, GateStep.returnedFalse api_error_message, 1⟩ := by
  simp [api_get_request, h]

/-- A page the loop fully processes: both requests succeed with status 200,
no video id is missing (the comma join does not raise), and the statistics
items do not index the buffers out of range. -/
def page_ok (p : PageFetch) : Prop :=
  p.listStatus = 200 ∧ p.statsStatus = 200 ∧
  (pyJoinComma (video_id_buffer p.listBody)).isSome = true ∧
  (page_records p.listBody p.statsBody).isSome = true

instance (p : PageFetch) : Decidable (page_ok p) := by
  unfold page_ok; infer_instance

/-- The records a fully processed page contributes. -/
def page_recs (p : PageFetch) : List VideoRecord :=
  (page_records p.listBody p.statsBody).getD []

lemma run_pages_cons_good (p : PageFetch) (rest : List PageFetch) (acc : List VideoRecord)
    (hp : page_ok p) (ht : (p.listBody.nextPageToken).isSome = true) :
    run_pages true (p :: rest) acc =
      { allow := (run_pages true rest (acc ++ page_recs p)).allow,
        outcome := (run_pages true rest (acc ++ page_recs p)).outcome,
        list_requests := 1 + (run_pages true rest (acc ++ page_recs p)).list_requests,
        stats_requests := 1 + (run_pages true rest (acc ++ page_recs p)).stats_requests } := by
  obtain ⟨h1, h2, h3, h4⟩ := hp
  obtain ⟨j, hj⟩ := Option.isSome_iff_exists.mp h3
  obtain ⟨recs, hrec⟩ := Option.isSome_iff_exists.mp h4
  obtain ⟨t, htok⟩ := Option.isSome_iff_exists.mp ht
  have hpr : page_recs p = recs := by simp [page_recs, hrec]
  simp only [run_pages, h1, h2, api_open_200, hj, hrec, htok, hpr]
  simp

lemma run_pages_cons_last (p : PageFetch) (rest : List PageFetch) (acc : List VideoRecord)
    (hp : page_ok p) (ht : p.listBody.nextPageToken = none) :
    run_pages true (p :: rest) acc =
      ⟨true, RunOutcome.ok (acc ++ page_recs p), 1, 1⟩ := by
  obtain ⟨h1, h2, h3, h4⟩ := hp
  obtain ⟨j, hj⟩ := Option.isSome_iff_exists.mp h3
  obtain ⟨recs, hrec⟩ := Option.isSome_iff_exists.mp h4
  have hpr : page_recs p = recs := by simp [page_recs, hrec]
  simp only [run_pages, h1, h2, api_open_200, hj, hrec, ht, hpr]
  simp

lemma run_pages_cons_stats_closed (p : PageFetch) (rest : List PageFetch)
    (acc : List VideoRecord) (h1 : p.listStatus = 200)
    (h3 : (pyJoinComma (video_id_buffer p.listBody)).isSome = true)
    (h2 : p.statsStatus ≠ 200) :
    run_pages true (p :: rest) acc = ⟨false, RunOutcome.ok acc, 1, 1⟩ := by
  obtain ⟨j, hj⟩ := Option.isSome_iff_exists.mp h3
  simp only [run_pages, h1, h2, api_open_200, api_open_fail _ h2, hj]
  simp

lemma run_pages_append_good (pre : List PageFetch)
    (h : ∀ p ∈ pre, page_ok p ∧ (p.listBody.nextPageToken).isSome = true)
    (rest : List PageFetch) (acc : List VideoRecord) :
    run_pages true (pre ++ rest) acc =
      { allow := (run_pages true rest (acc ++ pre.flatMap page_recs)).allow,
        outcome := (run_pages true rest (acc ++ pre.flatMap page_recs)).outcome,
        list_requests := pre.length + (run_pages true rest (acc ++ pre.flatMap page_recs)).list_requests,
        stats_requests := pre.length + (run_pages true rest (acc ++ pre.flatMap page_recs)).stats_requests } := by
  induction pre generalizing acc with
  | nil => simp
  | cons p pre ih =>
    have hp := h p (List.mem_cons_self p pre)
    have hrest : ∀ q ∈ pre, page_ok q ∧ (q.listBody.nextPageToken).isSome = true :=
      fun q hq => h q (List.mem_cons_of_mem p hq)
    rw [List.cons_append, run_pages_cons_good p (pre ++ rest) acc hp.1 hp.2, ih hrest]
    simp [List.flatMap_cons, List.append_assoc, Nat.add_assoc, Nat.add_comm 1]

/-- The record built from filtered item `it` zipped with statistics item `v`:
what lines 164-174 append when `i` is in range, expressed through the
filtered item instead of the four parallel buffers. -/
def mk_zip_record (it : PlaylistItem) (v : StatsItem) : VideoRecord :=
  { title := it.snippet.title,
    link := youtube_link ++ pyStr it.contentDetails.videoId,
    publish_time := it.snippet.publishedAt.map normalize_published_at,
    views := v.statistics.viewCount,
    likes := v.statistics.likeCount,
    comments_number := v.statistics.commentCount,
    description := it.snippet.description }

lemma mk_video_record_lt (page : PageJson) (i : Nat) (v : StatsItem)
    (h : i < (filteredItems page).length) :
    mk_video_record page i v = some (mk_zip_record ((filteredItems page).get ⟨i, h⟩) v) := by
  simp [mk_video_record, mk_zip_record, title_buffer, description_buffer, video_id_buffer,
        publish_time_buffer, List.getElem?_map, List.getElem?_eq_getElem h]

lemma mk_video_record_ge (page : PageJson) (i : Nat) (v : StatsItem)
    (h : (filteredItems page).length ≤ i) :
    mk_video_record page i v = none := by
  simp [mk_video_record, title_buffer, description_buffer, video_id_buffer,
        publish_time_buffer, List.getElem?_map, List.getElem?_eq_none h]

lemma records_loop_eq_zipWith (page : PageJson) (l : List StatsItem) :
    ∀ i, i + l.length ≤ (filteredItems page).length →
      records_loop page i l = some (List.zipWith mk_zip_record ((filteredItems page).drop i) l) := by
  induction l with
  | nil => intro i h; simp [records_loop]
  | cons v tl ih =>
    intro i h
    have hi : i < (filteredItems page).length := by simp at h; omega
    have h2 : (i + 1) + tl.length ≤ (filteredItems page).length := by simp at h; omega
    rw [records_loop, mk_video_record_lt page i v hi, ih (i + 1) h2,
        List.drop_eq_getElem_cons hi]
    simp [-List.getElem_cons_drop]

lemma records_loop_eq_none (page : PageJson) (l : List StatsItem) :
    ∀ i, l ≠ [] → (filteredItems page).length < i + l.length →
      records_loop page i l = none := by
  induction l with
  | nil => intro i h hlen; exact absurd rfl h
  | cons v tl ih =>
    intro i _ hlen
    by_cases hi : i < (filteredItems page).length
    · have htl : tl ≠ [] := by
        intro he; subst he; simp at hlen; omega
      have h2 : (filteredItems page).length < (i + 1) + tl.length := by simp at hlen; omega
      rw [records_loop, mk_video_record_lt page i v hi, ih (i + 1) htl h2]
      simp
    · rw [records_loop, mk_video_record_ge page i v (by omega)]

lemma page_records_eq_zipWith (page : PageJson) (stats : StatsJson)
    (h : stats.items.length ≤ (filteredItems page).length) :
    page_records page stats =
      some (List.zipWith mk_zip_record (filteredItems page) stats.items) := by
  have := records_loop_eq_zipWith page stats.items 0 (by simpa using h)
  simpa [page_records] using this

lemma page_records_eq_none (page : PageJson) (stats : StatsJson)
    (h : (filteredItems page).length < stats.items.length) :
    page_records page stats = none := by
  have hne : stats.items ≠ [] := by
    intro he; rw [he] at h; simp at h
  exact records_loop_eq_none page stats.items 0 hne (by simpa using h)

lemma flatMap_congr_on {A B : Type} (l : List A) (f g : A → List B)
    (h : ∀ a ∈ l, f a = g a) : l.flatMap f = l.flatMap g := by
  induction l with
  | nil => rfl
  | cons x xs ih =>
    simp only [List.flatMap_cons, h x (by simp), ih (fun a ha => h a (by simp [ha]))]

lemma run_pages_cons_index_fault (p : PageFetch) (rest : List PageFetch)
    (acc : List VideoRecord) (h1 : p.listStatus = 200)
    (hj : (pyJoinComma (video_id_buffer p.listBody)).isSome = true)
    (h2 : p.statsStatus = 200)
    (hrec : page_records p.listBody p.statsBody = none) :
    run_pages true (p :: rest) acc = ⟨true, RunOutcome.indexFault, 1, 1⟩ := by
  obtain ⟨j, hjs⟩ := Option.isSome_iff_exists.mp hj
  simp only [run_pages, h1, h2, api_open_200, hjs, hrec]
  simp

/-- C1: when the statistics request for page k signals gate-closed (first
non-200 status of the run), the engine returns normally with exactly the
records accumulated from the k-1 preceding pages; page k's already-parsed
list items are discarded, pages scripted after k are never requested, and
the outcome is the non-fatal `RunOutcome.ok`. -/
theorem C1_partial_failure_truncation (pre : List PageFetch) (bad : PageFetch)
    (rest : List PageFetch)
    (hpre : ∀ p ∈ pre, page_ok p ∧ (p.listBody.nextPageToken).isSome = true)
    (hbl : bad.listStatus = 200)
    (hbj : (pyJoinComma (video_id_buffer bad.listBody)).isSome = true)
    (hbs : bad.statsStatus ≠ 200) :
    get_videos_list (pre ++ bad :: rest) =
      ⟨false, RunOutcome.ok (pre.flatMap page_recs), pre.length + 1, pre.length + 1⟩ := by
  rw [get_videos_list, run_pages_append_good pre hpre (bad :: rest) [],
      run_pages_cons_stats_closed bad rest _ hbl hbj hbs]
  simp

/-- C2: on a scripted run in which every page before the terminal one
carries a continuation cursor and every visited page is fully processed,
the engine terminates with a normal result, stops at the first page whose
response omits `nextPageToken` (pages scripted afterwards are never
requested), and performs exactly one playlist-items request plus one
statistics request per page visited. -/
theorem C2_pagination_terminates (pre : List PageFetch) (last : PageFetch)
    (rest : List PageFetch)
    (hpre : ∀ p ∈ pre, page_ok p ∧ (p.listBody.nextPageToken).isSome = true)
    (hlast : page_ok last) (htok : last.listBody.nextPageToken = none) :
    get_videos_list (pre ++ last :: rest) =
      ⟨true, RunOutcome.ok (pre.flatMap page_recs ++ page_recs last),
       pre.length + 1, pre.length + 1⟩ := by
  rw [get_videos_list, run_pages_append_good pre hpre (last :: rest) [],
      run_pages_cons_last last rest _ hlast htok]
  simp

/-- C7: the output sequence is exactly the concatenation, over pages in
fetch order, of each page's records zipped in item order; no step of the
engine re-sorts it. -/
theorem C7_order_preservation (pre : List PageFetch) (last : PageFetch)
    (rest : List PageFetch)
    (hpre : ∀ p ∈ pre, page_ok p ∧ (p.listBody.nextPageToken).isSome = true)
    (hlast : page_ok last) (htok : last.listBody.nextPageToken = none)
    (hlen : ∀ p ∈ pre ++ [last],
      p.statsBody.items.length ≤ (filteredItems p.listBody).length) :
    (get_videos_list (pre ++ last :: rest)).outcome =
      RunOutcome.ok ((pre ++ [last]).flatMap
        (fun p => List.zipWith mk_zip_record (filteredItems p.listBody) p.statsBody.items)) := by
  rw [get_videos_list, run_pages_append_good pre hpre (last :: rest) [],
      run_pages_cons_last last rest _ hlast htok]
  have hrec : ∀ p ∈ pre ++ [last],
      page_recs p = List.zipWith mk_zip_record (filteredItems p.listBody) p.statsBody.items := by
    intro p hp
    have := page_records_eq_zipWith p.listBody p.statsBody (hlen p hp)
    simp [page_recs, this]
  have hflat : pre.flatMap page_recs =
      pre.flatMap (fun p => List.zipWith mk_zip_record (filteredItems p.listBody) p.statsBody.items) :=
    flatMap_congr_on pre _ _ (fun p hp => hrec p (List.mem_append_left _ hp))
  rw [hflat, hrec last (by simp)]
  simp [List.flatMap_append]

/-- C10: per page, the number of appended records equals the number of items
in the statistics response, not the number of filtered playlist items: with
at most as many statistics items as filtered entries the page yields exactly
`stats.items.length` records (trailing playlist entries silently omitted);
with more, a buffer index goes out of range and the run aborts. -/
theorem C10_record_count_matches_stats (p : PageFetch)
    (hl : p.listStatus = 200)
    (hj : (pyJoinComma (video_id_buffer p.listBody)).isSome = true)
    (hs : p.statsStatus = 200) :
    (p.statsBody.items.length ≤ (filteredItems p.listBody).length →
      ∃ l, page_records p.listBody p.statsBody = some l ∧
        l.length = p.statsBody.items.length) ∧
    ((filteredItems p.listBody).length < p.statsBody.items.length →
      page_records p.listBody p.statsBody = none ∧
      (get_videos_list [p]).outcome = RunOutcome.indexFault) := by
  constructor
  · intro h
    refine ⟨_, page_records_eq_zipWith p.listBody p.statsBody h, ?_⟩
    simp [List.length_zipWith]
    omega
  · intro h
    have hnone := page_records_eq_none p.listBody p.statsBody h
    refine ⟨hnone, ?_⟩
    rw [get_videos_list, run_pages_cons_index_fault p [] [] hl hj hs hnone]

/-- Sample playlist item with every optional field present. -/
def sample_item1 : PlaylistItem :=
  { kind := "youtube#playlistItem",
    snippet := { title := some "t1", description := some "d1",
                 publishedAt := some "2021-05-01T12:00:00Z" },
    contentDetails := { videoId := some "v1" } }

/-- Sample playlist item with title and publish time absent. -/
def sample_item2 : PlaylistItem :=
  { kind := "youtube#playlistItem",
    snippet := { title := none, description := some "d2", publishedAt := none },
    contentDetails := { videoId := some "v2" } }

def sample_stat1 : StatsItem :=
  { statistics := { viewCount := some "10", likeCount := none, commentCount := some "3" } }

def sample_stat2 : StatsItem :=
  { statistics := { viewCount := some "20", likeCount := some "5", commentCount := none } }

/-- The record the engine builds for `sample_item1` paired with `sample_stat1`. -/
def sample_record1 : VideoRecord :=
  { title := some "t1", link := "https://www.youtube.com/watch?v=v1",
    publish_time := some "2021-05-01 12:00:00", views := some "10", likes := none,
    comments_number := some "3", description := some "d1" }

/-- The record the engine builds for `sample_item2` paired with `sample_stat2`. -/
def sample_record2 : VideoRecord :=
  { title := none, link := "https://www.youtube.com/watch?v=v2",
    publish_time := none, views := some "20", likes := some "5",
    comments_number := none, description := some "d2" }

/-- A fully processed page that carries a continuation cursor. -/
def sample_page1 : PageFetch :=
  { listStatus := 200,
    listBody := { items := [sample_item1, sample_item2], nextPageToken := some "tok" },
    statsStatus := 200,
    statsBody := { items := [sample_stat1, sample_stat2] } }

/-- A fully processed terminal page (no continuation cursor). -/
def sample_page2 : PageFetch :=
  { listStatus := 200,
    listBody := { items := [sample_item1], nextPageToken := none },
    statsStatus := 200,
    statsBody := { items := [sample_stat1] } }

/-- A page scripted after the terminal one; the engine must never request it. -/
def junk_page : PageFetch :=
  { listStatus := 500,
    listBody := { items := [], nextPageToken := some "junk" },
    statsStatus := 500,
    statsBody := { items := [] } }

/-- A page whose statistics request is rejected (non-200 status). -/
def bad_stats_page : PageFetch :=
  { listStatus := 200,
    listBody := { items := [sample_item1, sample_item2], nextPageToken := some "tok2" },
    statsStatus := 403,
    statsBody := { items := [] } }

/-- A page whose statistics response has more items than the page has
filtered playlist entries. -/
def over_stats_page : PageFetch :=
  { listStatus := 200,
    listBody := { items := [sample_item1], nextPageToken := none },
    statsStatus := 200,
    statsBody := { items := [sample_stat1, sample_stat2] } }

theorem C1_witness :
    get_videos_list [sample_page1, bad_stats_page, junk_page] =
      ⟨false, RunOutcome.ok [sample_record1, sample_record2], 2, 2⟩ :=
  (C1_partial_failure_truncation [sample_page1] bad_stats_page [junk_page]
      (by decide) (by decide) (by decide) (by decide)).trans (by decide)

theorem C2_witness :
    get_videos_list [sample_page1, sample_page2, junk_page] =
      ⟨true, RunOutcome.ok [sample_record1, sample_record2, sample_record1], 2, 2⟩ :=
  (C2_pagination_terminates [sample_page1] sample_page2 [junk_page]
      (by decide) (by decide) (by decide)).trans (by decide)

theorem C7_witness :
    (get_videos_list [sample_page1, sample_page2]).outcome =
      RunOutcome.ok [sample_record1, sample_record2, sample_record1] :=
  (C7_order_preservation [sample_page1] sample_page2 [] (by decide) (by decide)
      (by decide) (by decide)).trans (by decide)

theorem C10_witness :
    ((get_videos_list [over_stats_page]).outcome = RunOutcome.indexFault ∧
      page_records over_stats_page.listBody over_stats_page.statsBody = none) ∧
    (∃ l, page_records sample_page2.listBody sample_page2.statsBody = some l ∧
      l.length = 1) := by
  constructor
  · have h := (C10_record_count_matches_stats over_stats_page (by decide) (by decide)
        (by decide)).2 (by decide)
    exact ⟨h.2, h.1⟩
  · exact (C10_record_count_matches_stats sample_page2 (by decide) (by decide)
        (by decide)).1 (by decide)

/-- C3 counterexample: 201 is a 2xx success status, yet with the gate open
the code compares against exactly 200, closes the gate, and returns the
closed-signal `False` instead of the response. -/
theorem C3_counterexample_201 :
    api_get_request true 201 false =
      ⟨false, GateStep.returnedFalse api_error_message, 1⟩ ∧
    200 ≤ 201 ∧ 201 < 300 := by decide

/-- C3 amended: with the gate open, success means status exactly 200 (any
other status, 2xx included, is a failure): on 200 the response is returned
and the gate stays open; otherwise the gate closes and, with `exit_if_not`
true, the run terminates with a non-zero exit after printing
"Api response error!", while with `exit_if_not` false the closed-signal
`False` is returned after printing the same message. -/
theorem C3_gate_success_is_200 (status : Nat) (failFast : Bool) :
    (status = 200 → api_get_request true status failFast =
      ⟨true, GateStep.gotResponse, 1⟩) ∧
    (status ≠ 200 → api_get_request true status failFast =
      ⟨false,
       if failFast then GateStep.exited api_error_message 1
       else GateStep.returnedFalse api_error_message, 1⟩) := by
  constructor
  · intro h; subst h; exact api_open_200 failFast
  · intro h; cases failFast <;> simp [api_get_request, h]

theorem C3_witness :
    api_get_request true 200 false = ⟨true, GateStep.gotResponse, 1⟩ ∧
    api_get_request true 404 true =
      ⟨false, GateStep.exited api_error_message 1, 1⟩ ∧
    api_get_request true 404 false =
      ⟨false, GateStep.returnedFalse api_error_message, 1⟩ :=
  ⟨(C3_gate_success_is_200 200 false).1 rfl,
   by simpa using (C3_gate_success_is_200 404 true).2 (by decide),
   by simpa using (C3_gate_success_is_200 404 false).2 (by decide)⟩

/-- The C4 failing input: a playlist item whose snippet fields are all
present but whose `contentDetails` lacks `videoId`. -/
def missing_vid_item : PlaylistItem :=
  { kind := "youtube#playlistItem",
    snippet := { title := some "a", description := some "b",
                 publishedAt := some "2021-05-01T12:00:00Z" },
    contentDetails := { videoId := none } }

def missing_vid_page : PageFetch :=
  { listStatus := 200,
    listBody := { items := [missing_vid_item], nextPageToken := none },
    statsStatus := 200,
    statsBody := { items := [] } }

/-- C4 at the failing input: the per-field extraction does tolerate the
missing `videoId` (the title buffer still holds the title, the id buffer
holds `None`), but `",".join(video_id_buffer)` then raises `TypeError`, so
the run aborts and no statistics request is ever issued
(`stats_requests = 0`), contradicting the claim that the batched request is
still issued without failing. -/
theorem C4_missing_video_id_join_raises :
    get_videos_list [missing_vid_page] = ⟨true, RunOutcome.typeFault, 1, 0⟩ ∧
    title_buffer missing_vid_page.listBody = [some "a"] ∧
    video_id_buffer missing_vid_page.listBody = [none] := by decide

/-- A playlist item that lacks `publishedAt`. -/
def no_published_item : PlaylistItem :=
  { kind := "youtube#playlistItem",
    snippet := { title := some "t", description := some "d", publishedAt := none },
    contentDetails := { videoId := some "vid0" } }

/-- A terminal page whose single playlist item lacks `publishedAt`. -/
def no_published_page : PageFetch :=
  { listStatus := 200,
    listBody := { items := [no_published_item], nextPageToken := none },
    statsStatus := 200,
    statsBody := { items := [sample_stat1] } }

/-- C8: the timestamp "2021-05-01T12:00:00Z" normalizes to
"2021-05-01 12:00:00" (separator replaced by a space, zone marker dropped),
and an item lacking `publishedAt` yields a record whose `publish_time` is
`none` — absent, not an empty string or a current time. -/
theorem C8_timestamp_normalization :
    normalize_published_at "2021-05-01T12:00:00Z" = "2021-05-01 12:00:00" ∧
    (get_videos_list [no_published_page]).outcome = RunOutcome.ok
      [{ title := some "t", link := "https://www.youtube.com/watch?v=vid0",
         publish_time := none, views := some "10", likes := none,
         comments_number := some "3", description := some "d" }] := by decide

/-- `default_max_results` (src/main.py line 20). -/
def default_max_results : Int := 50

/-- `correct_args` (lines 188-198), restricted to the `-maxr` argument it
validates: returns the corrected value and whether the out-of-range warning
was printed. -/
def correct_args (maxr : Int) : Int × Bool :=
  if maxr ≤ 0 ∨ default_max_results < maxr then (default_max_results, true)
  else (maxr, false)

/-- C9: a requested page size outside (0, 50] resolves to the default 50
with a warning; an in-range value is preserved unchanged with no warning. -/
theorem C9_page_size_clamp (m : Int) :
    ((m ≤ 0 ∨ 50 < m) → correct_args m = (50, true)) ∧
    (0 < m → m ≤ 50 → correct_args m = (m, false)) := by
  constructor
  · intro h
    have hc : m ≤ 0 ∨ default_max_results < m := by
      simpa [default_max_results] using h
    rw [correct_args, if_pos hc]
    rfl
  · intro h1 h2
    have hc : ¬(m ≤ 0 ∨ default_max_results < m) := by
      simp [default_max_results]; omega
    rw [correct_args, if_neg hc]

theorem C9_witness :
    correct_args 0 = (50, true) ∧ correct_args (-5) = (50, true) ∧
    correct_args 200 = (50, true) ∧ correct_args 25 = (25, false) :=
  ⟨(C9_page_size_clamp 0).1 (Or.inl (by decide)),
   (C9_page_size_clamp (-5)).1 (Or.inl (by decide)),
   (C9_page_size_clamp 200).1 (Or.inr (by decide)),
   (C9_page_size_clamp 25).2 (by decide) (by decide)⟩

structure RelatedPlaylists where
  uploads : String
deriving DecidableEq

structure ChannelContentDetails where
  relatedPlaylists : RelatedPlaylists
deriving DecidableEq

/-- One element of the `items` array of a channel-lookup response
(src/main.py line 79). -/
structure ChannelItem where
  contentDetails : ChannelContentDetails
deriving DecidableEq

/-- The JSON body of a channel-lookup response. -/
structure ChannelLookupJson where
  items : List ChannelItem
deriving DecidableEq

/-- How `fetch_channel_playlist_id` (src/main.py lines 73-81) ends.
`ok`: the uploads playlist id was returned.
`indexError`: `json["items"][0]` raised an uncaught `IndexError`, aborting
the run with a traceback (no designed message).
`fatalExit`: the gated call printed `printed` and exited the process. -/
inductive ResolveResult where
  | ok : (playlist_id : String) → ResolveResult
  | indexError : ResolveResult
  | fatalExit : (printed : String) → ResolveResult
deriving DecidableEq

/-- `fetch_channel_playlist_id` (lines 73-81).  The channel-id scrape of the
HTML page (`get_channel_id`) is the external collaborator and is assumed
resolved; the scripted inputs are the status and body of the channel-lookup
request.  The call is gated with `exit_if_not=True`, so any non-response
outcome is the printed fatal exit; on a response the code reads
`json["items"][0]["contentDetails"]["relatedPlaylists"]["uploads"]`,
which raises `IndexError` when the `items` array is empty. -/
def fetch_channel_playlist_id (allow : Bool) (status : Nat)
    (body : ChannelLookupJson) : ResolveResult :=
  match (api_get_request allow status true).step with
  | GateStep.gotResponse =>
    match body.items with
    | [] => ResolveResult.indexError
    | it :: _ => ResolveResult.ok it.contentDetails.relatedPlaylists.uploads
  | _ => ResolveResult.fatalExit api_error_message

/-- C5 counterexample: on a 200 response whose `items` array is empty, the
resolver hits the out-of-bounds index fault, not the designed fatal error
path with the gate's message. -/
theorem C5_counterexample_empty_items :
    fetch_channel_playlist_id true 200 ⟨[]⟩ = ResolveResult.indexError ∧
    fetch_channel_playlist_id true 200 ⟨[]⟩ ≠
      ResolveResult.fatalExit api_error_message := by decide

/-- C5 amended: for a non-empty `items` array the resolver returns the
playlist id deterministically derived from `items[0]`; for an empty array
it aborts with an uncaught `IndexError` (an index fault, not a designed
fatal message); a non-200 lookup status takes the fail-fast exit. -/
theorem C5_resolver_behavior (status : Nat) (body : ChannelLookupJson) :
    (status = 200 → body.items = [] →
      fetch_channel_playlist_id true status body = ResolveResult.indexError) ∧
    (status = 200 → ∀ it rest, body.items = it :: rest →
      fetch_channel_playlist_id true status body =
        ResolveResult.ok it.contentDetails.relatedPlaylists.uploads) ∧
    (status ≠ 200 →
      fetch_channel_playlist_id true status body =
        ResolveResult.fatalExit api_error_message) := by
  refine ⟨?_, ?_, ?_⟩
  · intro hs he
    subst hs
    simp [fetch_channel_playlist_id, api_open_200, he]
  · intro hs it rest he
    subst hs
    simp [fetch_channel_playlist_id, api_open_200, he]
  · intro hs
    simp [fetch_channel_playlist_id, api_get_request, hs]

def sample_channel_item : ChannelItem :=
  { contentDetails := { relatedPlaylists := { uploads := "UUabc" } } }

theorem C5_witness :
    fetch_channel_playlist_id true 200 ⟨[]⟩ = ResolveResult.indexError ∧
    fetch_channel_playlist_id true 200 ⟨[sample_channel_item]⟩ =
      ResolveResult.ok "UUabc" ∧
    fetch_channel_playlist_id true 403 ⟨[sample_channel_item]⟩ =
      ResolveResult.fatalExit api_error_message :=
  ⟨(C5_resolver_behavior 200 ⟨[]⟩).1 rfl rfl,
   (C5_resolver_behavior 200 ⟨[sample_channel_item]⟩).2.1 rfl
     sample_channel_item [] rfl,
   (C5_resolver_behavior 403 ⟨[sample_channel_item]⟩).2.2 (by decide)⟩

/-- The characters the output file name must not contain: the Python
literal at src/main.py line 236 is backslash, slash, colon, star, question
mark, double quote, the angle brackets and the pipe. -/
def forbidden_name_chars : List Char :=
  ['\\', '/', ':', '*', '?', '"', '<', '>', '|']

/-- `os_can_save` (line 236): true when none of the forbidden characters
occurs in the file name (character membership tested on the string's
character sequence). -/
def os_can_save (file_name : String) : Bool :=
  (forbidden_name_chars.filter (fun s => file_name.data.contains s)).length == 0

example : os_can_save "ytb_channel_data" = true := by decide
example : os_can_save "bad/name" = false := by decide

/-- `validate_args` (lines 217-240).  The function itself performs the two
probe requests; `url_status` and `api_status` script their status codes.
The returned string is `error_m`, built by sequential appends. -/
def validate_args (url key out : String) (url_status api_status : Nat) : String :=
  let error_m := ""
  let error_m := if url_status = 404
    then error_m ++ "Error: youtube channel \x27" ++ url ++ "\x27 do not exists!\n"
    else error_m
  let error_m := if api_status = 400
    then error_m ++ "Error: api key \x27" ++ key ++ "\x27 not valid!\n"
    else error_m
  let error_m := if url_status ≠ 404 ∧ url_status ≠ 200
    then error_m ++ "Error: url response error!\n" else error_m
  let error_m := if api_status ≠ 400 ∧ api_status ≠ 200
    then error_m ++ "Error: api response error!\n" else error_m
  let error_m := if os_can_save out = false
    then error_m ++ "Error: file name can not contain \\/:*?\"<>| symbols!\n"
    else error_m
  error_m

/-- One element of the `items` array read by `fetch_channel_data`
(line 91 reads `items[0]["snippet"]["channelTitle"]`). -/
structure ChannelDataItem where
  channelTitle : String
deriving DecidableEq

/-- The parts of the playlist-items response `fetch_channel_data` reads:
the `items` array and `pageInfo.totalResults` (lines 90-92). -/
structure ChannelDataJson where
  items : List ChannelDataItem
  totalResults : Int
deriving DecidableEq

/-- How `fetch_channel_data` (lines 84-94) ends. -/
inductive FetchDataResult where
  | ok : (channel_title : Option String) → (videos_number : Int) → FetchDataResult
  | fatalExit : (printed : String) → FetchDataResult
deriving DecidableEq

/-- `fetch_channel_data` (lines 84-94): a gated `exit_if_not=True` call;
on a response, the channel title comes from the first item when the
`items` array is non-empty, else stays `None`, and the video count is the
endpoint-reported `totalResults`. -/
def fetch_channel_data (allow : Bool) (status : Nat)
    (body : ChannelDataJson) : FetchDataResult :=
  match (api_get_request allow status true).step with
  | GateStep.gotResponse =>
    let channel_title := match body.items with
      | [] => none
      | it :: _ => some it.channelTitle
    FetchDataResult.ok channel_title body.totalResults
  | _ => FetchDataResult.fatalExit api_error_message

/-- Everything the environment scripts for one run of `main`
(lines 243-283): the CLI arguments and, for each request the run may
perform, the status and body the remote side would deliver. -/
structure Env where
  url : String
  key : String
  out : String
  urlStatus : Nat
  apiProbeStatus : Nat
  channelLookupStatus : Nat
  channelLookup : ChannelLookupJson
  channelDataStatus : Nat
  channelData : ChannelDataJson
  pages : List PageFetch
deriving DecidableEq

/-- How a run of `main` ends.
`validationFailure`: `main` printed the validation error string and
returned normally, so the process exits with status 0.
`fatalExit`: `sys.exit` was called after printing a message: non-zero exit.
`pyFault`: an uncaught exception (IndexError / TypeError) aborted the run:
non-zero exit, no output file.
`wroteFile`: the run wrote the output document and exited normally.
`outOfScript`: the pagination loop wanted a page the script does not
provide (a model artifact, unreachable in the theorems below). -/
inductive MainResult where
  | validationFailure : (printed : String) → MainResult
  | fatalExit : (printed : String) → MainResult
  | pyFault : MainResult
  | wroteFile : (channel_title : Option String) → (videos_number : Int) →
      (videos : List VideoRecord) → MainResult
  | outOfScript : MainResult
deriving DecidableEq

/-- The process exit status each `MainResult` stands for: Python exits 0
when `main` returns, 1 on `sys.exit(str)` and on an uncaught exception. -/
def process_exit_code : MainResult → Nat
  | MainResult.validationFailure _ => 0
  | MainResult.fatalExit _ => 1
  | MainResult.pyFault => 1
  | MainResult.wroteFile _ _ _ => 0
  | MainResult.outOfScript => 0

/-- `main` (lines 243-283): validate the arguments; on a non-empty error
string print it and return (exit status 0); otherwise resolve the playlist
id (fail-fast gated), fetch the channel summary (fail-fast gated), run the
pagination loop and write the output file.  Each successful fail-fast call
leaves the gate open, so the loop starts with the gate open. -/
def main_run (env : Env) : MainResult :=
  let validation_error :=
    validate_args env.url env.key env.out env.urlStatus env.apiProbeStatus
  if validation_error ≠ "" then MainResult.validationFailure validation_error
  else
    match fetch_channel_playlist_id true env.channelLookupStatus env.channelLookup with
    | ResolveResult.fatalExit m => MainResult.fatalExit m
    | ResolveResult.indexError => MainResult.pyFault
    | ResolveResult.ok _ =>
      match fetch_channel_data true env.channelDataStatus env.channelData with
      | FetchDataResult.fatalExit m => MainResult.fatalExit m
      | FetchDataResult.ok channel_title videos_number =>
        match (get_videos_list env.pages).outcome with
        | RunOutcome.ok videos =>
            MainResult.wroteFile channel_title videos_number videos
        | RunOutcome.typeFault => MainResult.pyFault
        | RunOutcome.indexFault => MainResult.pyFault
        | RunOutcome.envExhausted _ => MainResult.outOfScript

lemma validate_args_ne_empty (url key out : String) (us as : Nat)
    (h : os_can_save out = false) :
    validate_args url key out us as ≠ "" := by
  simp only [validate_args]
  rw [if_pos h]
  intro heq
  have hlen := congrArg String.length heq
  rw [String.length_append] at hlen
  have hm : 0 < ("Error: file name can not contain \\/:*?\"<>| symbols!\n").length := by
    decide
  have h0 : ("" : String).length = 0 := rfl
  rw [h0] at hlen
  omega

/-- The C6 counterexample environment: an output name containing "/". -/
def c6_env : Env :=
  { url := "https://www.youtube.com/c/somechannel", key := "k", out := "bad/name",
    urlStatus := 200, apiProbeStatus := 200,
    channelLookupStatus := 200, channelLookup := ⟨[]⟩,
    channelDataStatus := 200, channelData := ⟨[], 0⟩, pages := [] }

/-- C6 counterexample: with an output name containing the forbidden "/",
`main` prints the validation message and returns normally, so the process
terminates with exit status 0, not the non-zero status the claim demands. -/
theorem C6_counterexample_zero_exit :
    main_run c6_env = MainResult.validationFailure
      "Error: file name can not contain \\/:*?\"<>| symbols!\n" ∧
    process_exit_code (main_run c6_env) = 0 := by decide

/-- C6 amended: when the output target name contains a forbidden filesystem
character, the run stops at validation with a message and exit status ZERO
(`main` prints and returns normally rather than exiting non-zero), before
any channel data is fetched and before any output is written: the result is
a `validationFailure` that does not depend on the scripted channel lookup,
channel data or pages. -/
theorem C6_validation_stops_run (env : Env) (h : os_can_save env.out = false) :
    (∃ m, main_run env = MainResult.validationFailure m) ∧
    process_exit_code (main_run env) = 0 ∧
    (∀ env2 : Env, env2.url = env.url → env2.key = env.key → env2.out = env.out →
      env2.urlStatus = env.urlStatus → env2.apiProbeStatus = env.apiProbeStatus →
      main_run env2 = main_run env) := by
  have hne : validate_args env.url env.key env.out env.urlStatus env.apiProbeStatus ≠ "" :=
    validate_args_ne_empty _ _ _ _ _ h
  have hmain : main_run env = MainResult.validationFailure
      (validate_args env.url env.key env.out env.urlStatus env.apiProbeStatus) := by
    simp only [main_run]
    rw [if_pos hne]
  refine ⟨⟨_, hmain⟩, by rw [hmain]; rfl, ?_⟩
  intro env2 h1 h2 h3 h4 h5
  have hv : validate_args env2.url env2.key env2.out env2.urlStatus env2.apiProbeStatus
      = validate_args env.url env.key env.out env.urlStatus env.apiProbeStatus := by
    rw [h1, h2, h3, h4, h5]
  have hne2 : validate_args env2.url env2.key env2.out env2.urlStatus env2.apiProbeStatus
      ≠ "" := by rw [hv]; exact hne
  have hmain2 : main_run env2 = MainResult.validationFailure
      (validate_args env2.url env2.key env2.out env2.urlStatus env2.apiProbeStatus) := by
    simp only [main_run]
    rw [if_pos hne2]
  rw [hmain, hmain2, hv]

/-- A variant of the counterexample environment with a different scripted
remote side; validation must make `main` insensitive to it. -/
def c6_env2 : Env :=
  { url := "https://www.youtube.com/c/somechannel", key := "k", out := "bad/name",
    urlStatus := 200, apiProbeStatus := 200,
    channelLookupStatus := 500, channelLookup := ⟨[sample_channel_item]⟩,
    channelDataStatus := 500, channelData := ⟨[⟨"title"⟩], 3⟩, pages := [junk_page] }

theorem C6_witness :
    (∃ m, main_run c6_env = MainResult.validationFailure m) ∧
    process_exit_code (main_run c6_env) = 0 ∧ main_run c6_env2 = main_run c6_env := by
  have h := C6_validation_stops_run c6_env (by decide)
  exact ⟨h.1, h.2.1, h.2.2 c6_env2 rfl rfl rfl rfl rfl⟩
